import Mathlib

/-!
Shallow embedding of the terminal UI toolkit implemented in
src/imdb_scraper/curses_gui.py: the ScrollingPanel keyboard-navigation state
machine, the per-column width computation of set_rows/set_header, the
set_geometry height/width computation, the render damage-tracking gate, the
InputPanel single-line editor, the SelectableThread worker protocol, the
run_cancellable_thread bridge and the MainMenu dispatch loop.

Python unbounded integers are modelled as Int; Python list indexing and
slicing (including negative indices) as pyGet / pyTake / pyDrop; code that
raises IndexError is modelled as returning none.
-/

/-! Key constants: numeric values of the curses KEY_* constants and of the
Keycodes IntEnum defined at the top of curses_gui.py. -/

def KEY_UP : Int := 259

def KEY_DOWN : Int := 258

def KEY_LEFT : Int := 260

def KEY_RIGHT : Int := 261

def KEY_PPAGE : Int := 339

def KEY_NPAGE : Int := 338

def KEY_HOME : Int := 262

def KEY_END : Int := 360

def KEY_BACKSPACE : Int := 263

def KEY_DC : Int := 330

def keycode_ESCAPE : Int := 27

def keycode_RETURN : Int := 10

def keycode_BACKSPACE : Int := 127

def keycode_DELETE : Int := 330

/-! Python sequence primitives. pyGet models xs[i] (an out-of-range access,
which raises IndexError in Python, is none); pyTake models xs[:i] and pyDrop
models xs[i:], both with Python semantics for negative indices. -/

def pyGet {α : Type} (xs : List α) (i : Int) : Option α :=
  if i < 0 then
    (if i + xs.length < 0 then none else xs[(i + xs.length).toNat]?)
  else xs[i.toNat]?

def pyTake {α : Type} (xs : List α) (i : Int) : List α :=
  if i < 0 then xs.take (i + xs.length).toNat else xs.take i.toNat

def pyDrop {α : Type} (xs : List α) (i : Int) : List α :=
  if i < 0 then xs.drop (i + xs.length).toNat else xs.drop i.toNat

/-! Column and Row data model (curses_gui.py lines 120-162). A Column
defaults its width to the text length; Python evaluates `width or
self.text_length`, so an explicit width of 0 also falls back. -/

structure Column where
  text : String
  colour : Int
  width : Int
deriving DecidableEq

def mkColumn (text : String) (colour : Int) (width : Option Int) : Column :=
  { text := text
    colour := colour
    width :=
      match width with
      | none => (text.length : Int)
      | some w => if w = 0 then (text.length : Int) else w }

structure Row where
  columns : List Column
deriving DecidableEq

def rowOfString (s : String) : Row :=
  { columns := [mkColumn s 0 none] }

def rowOfStrings (ss : List String) : Row :=
  { columns := ss.map (fun s => mkColumn s 0 none) }

/-! ScrollingPanel navigation state: the fields of the Python object that
handle_keystroke reads and writes, plus the row set.  num_rows is derived
(the Python field is kept equal to len(self.rows) by set_rows). -/

structure PanelState where
  rows : List Row
  hilighted_row_index : Int
  hilighted_col_index : Int
  top_visible_row_index : Int
  content_height : Int
  needs_render : Bool
deriving DecidableEq

def numRows (s : PanelState) : Int := (s.rows.length : Int)

/-! Per-column width computation of ScrollingPanel.set_rows (lines 260-302):
column_widths starts from the header row widths (if a header was set), then
each row either extends the list (new column index) or takes the max. -/

def mergeWidths : List Int → List Column → List Int
  | ws, [] => ws
  | [], c :: cs => c.width :: mergeWidths [] cs
  | w :: ws, c :: cs => max w c.width :: mergeWidths ws cs

def headerRowList : Option Row → List Row
  | none => []
  | some h => [h]

def headerColumnWidths : Option Row → List Int
  | none => []
  | some h => h.columns.map (fun c => c.width)

def set_rows_column_widths (header_row : Option Row) (new_rows : List Row) : List Int :=
  new_rows.foldl (fun ws r => mergeWidths ws r.columns) (headerColumnWidths header_row)

/-! Spec-side definition for claim C3, following the spec sentence
"column_widths[i] = max over rows of column[i].width (including the header
row, if present)": the maximum, over all rows that have a column i, of that
column width. -/

def optMax : Option Int → Option Int → Option Int
  | none, b => b
  | some a, none => some a
  | some a, some b => some (max a b)

def listMaxInt : List Int → Option Int
  | [] => none
  | a :: as => some (as.foldl max a)

def specColumnWidth (header_row : Option Row) (new_rows : List Row) (i : Nat) : Option Int :=
  listMaxInt ((headerRowList header_row ++ new_rows).filterMap
    (fun r => (r.columns[i]?).map (fun c => c.width)))

/-! ScrollingPanel.handle_keystroke (lines 475-534), decomposed exactly as the
Python method: propose new indices from the key, clamp the row index to
[0, num_rows-1], re-anchor and clamp the top visible row, look up the row
(self.rows[hilighted_row_index] -- the step that raises IndexError on an
empty row set), adjust the column index, and commit, setting needs_render
only when something changed. -/

def proposedIndices (s : PanelState) (key : Int) : Int × Int :=
  if key = KEY_UP then (s.hilighted_row_index - 1, s.hilighted_col_index)
  else if key = KEY_DOWN then (s.hilighted_row_index + 1, s.hilighted_col_index)
  else if key = KEY_LEFT then (s.hilighted_row_index, s.hilighted_col_index - 1)
  else if key = KEY_RIGHT then (s.hilighted_row_index, s.hilighted_col_index + 1)
  else if key = KEY_PPAGE then
    (if s.hilighted_row_index > s.top_visible_row_index then s.top_visible_row_index
     else s.hilighted_row_index - s.content_height, s.hilighted_col_index)
  else if key = KEY_NPAGE then
    (if s.hilighted_row_index < s.top_visible_row_index + s.content_height - 1 then
       s.top_visible_row_index + s.content_height - 1
     else s.hilighted_row_index + s.content_height, s.hilighted_col_index)
  else if key = KEY_HOME then (0, 0)
  else if key = KEY_END then (numRows s - 1, 0)
  else (s.hilighted_row_index, s.hilighted_col_index)

def clampRow (num_rows r : Int) : Int :=
  if r < 0 then 0 else if r ≥ num_rows then num_rows - 1 else r

def anchorTop (num_rows ch top r : Int) : Int :=
  clampRow num_rows (if r < top then r else if r ≥ top + ch then r - ch + 1 else top)

def adjustCol (old_row new_row c1 nc : Int) : Int :=
  if old_row ≠ new_row then (if c1 ≥ nc then nc - 1 else c1)
  else if c1 < 0 then nc - 1
  else if c1 ≥ nc then 0
  else c1

def commitMove (s : PanelState) (r c t : Int) : PanelState :=
  { s with
    hilighted_row_index := r
    hilighted_col_index := c
    top_visible_row_index := t
    needs_render :=
      if s.top_visible_row_index ≠ t ∨ s.hilighted_row_index ≠ r ∨
          s.hilighted_col_index ≠ c then true
      else s.needs_render }

def handle_keystroke (s : PanelState) (key : Int) : Option PanelState :=
  match pyGet s.rows (clampRow (numRows s) (proposedIndices s key).1) with
  | none => none
  | some row =>
      some (commitMove s
        (clampRow (numRows s) (proposedIndices s key).1)
        (adjustCol s.hilighted_row_index
          (clampRow (numRows s) (proposedIndices s key).1)
          (proposedIndices s key).2 ((row.columns.length : Int)))
        (anchorTop (numRows s) s.content_height s.top_visible_row_index
          (clampRow (numRows s) (proposedIndices s key).1)))

def stepKeys (s : PanelState) : List Int → Option PanelState
  | [] => some s
  | k :: ks =>
    match handle_keystroke s k with
    | none => none
    | some s1 => stepKeys s1 ks

/-! State predicates used by the navigation theorems. -/

def intClamp (x lo hi : Int) : Int := max lo (min x hi)

def windowContains (s : PanelState) : Prop :=
  s.top_visible_row_index ≤ s.hilighted_row_index ∧
  s.hilighted_row_index < s.top_visible_row_index + s.content_height

def ValidState (s : PanelState) : Prop :=
  0 ≤ s.top_visible_row_index ∧
  s.top_visible_row_index ≤ s.hilighted_row_index ∧
  s.hilighted_row_index < s.top_visible_row_index + s.content_height ∧
  0 ≤ s.hilighted_row_index ∧
  s.hilighted_row_index ≤ numRows s - 1

/-! ScrollingPanel.render (lines 402-473): an early return unless forced or
dirty; otherwise the window is repainted from the current visual state and
the dirty flag is cleared.  The painted output is modelled as a snapshot of
the visual state consumed by the paint loop. -/

structure RenderSnapshot where
  rows : List Row
  top_visible_row_index : Int
  hilighted_row_index : Int
  hilighted_col_index : Int
deriving DecidableEq

def render (s : PanelState) (force : Bool) : PanelState × Option RenderSnapshot :=
  if !(force || s.needs_render) then (s, none)
  else
    ({ s with needs_render := false },
     some { rows := s.rows
            top_visible_row_index := s.top_visible_row_index
            hilighted_row_index := s.hilighted_row_index
            hilighted_col_index := s.hilighted_col_index })

/-! ScrollingPanel.set_geometry (lines 319-384): the height/width branches.
A Python float input is modelled as a rational; Python int() truncates
toward zero. -/

inductive GeomInput where
  | unset
  | cells (n : Int)
  | fraction (q : Rat)
deriving DecidableEq

def pyIntTrunc (q : Rat) : Int := if 0 ≤ q then q.floor else q.ceil

def set_geometry_height (h : GeomInput) (stdscr_height num_rows num_header_rows : Int) : Int :=
  match h with
  | GeomInput.unset => min stdscr_height (num_rows + 2 + num_header_rows)
  | GeomInput.fraction q => min stdscr_height (pyIntTrunc ((stdscr_height : Rat) * q))
  | GeomInput.cells n => if n ≤ 0 then stdscr_height + 2 * n else n

def set_geometry_width (w : GeomInput) (stdscr_width rows_max_width : Int) : Int :=
  match w with
  | GeomInput.unset => min stdscr_width (rows_max_width + 4)
  | GeomInput.fraction q => min stdscr_width (pyIntTrunc ((stdscr_width : Rat) * q))
  | GeomInput.cells n => if n ≤ 0 then stdscr_width + 2 * n else n

def GeomNonAbsolute : GeomInput → Prop
  | GeomInput.cells n => n ≤ 0
  | _ => True

/-! InputPanel (lines 633-768).  The state is the text (as a character list),
the cursor index, the first displayed character index, the entry width and
the allow-list.  inputInit models __init__; the edit operations model the
branches of InputPanel.handle_keystroke. -/

structure InputState where
  input_text : List Char
  input_text_cursor_index : Int
  input_text_first_displayed_char_index : Int
  entry_width : Int
  allowed_input_chars : String
  needs_render : Bool
deriving DecidableEq

def default_allowed_input_chars : String :=
  "abcdefghijklmnopqrstuvwxyzABCDEFGHIJKLMNOPQRSTUVWXYZ0123456789 !@#$%^&*(),<.>/?;:[\x7b]\x7d-_=+"

def computed_entry_width (entry_width : Option Int) (stdscr_width : Int) : Int :=
  match entry_width with
  | none => Int.fdiv stdscr_width 4
  | some w => if w = 0 then Int.fdiv stdscr_width 4 else w

def computed_allowed_chars (allowed : Option String) : String :=
  match allowed with
  | none => default_allowed_input_chars
  | some a => if a = "" then default_allowed_input_chars else a

def inputInit (default_value : String) (entry_width : Option Int)
    (allowed : Option String) (stdscr_width : Int) : InputState :=
  { input_text := default_value.data
    input_text_cursor_index := (default_value.data.length : Int)
    input_text_first_displayed_char_index :=
      if (default_value.data.length : Int) < computed_entry_width entry_width stdscr_width then 0
      else (default_value.data.length : Int) - computed_entry_width entry_width stdscr_width
    entry_width := computed_entry_width entry_width stdscr_width
    allowed_input_chars := computed_allowed_chars allowed
    needs_render := true }

def input_backspace (s : InputState) : InputState :=
  if s.input_text_cursor_index > 0 then
    { s with
      input_text :=
        pyTake s.input_text (s.input_text_cursor_index - 1) ++
          pyDrop s.input_text s.input_text_cursor_index
      input_text_cursor_index := s.input_text_cursor_index - 1
      input_text_first_displayed_char_index :=
        if s.input_text_cursor_index - 1 < s.input_text_first_displayed_char_index then
          s.input_text_cursor_index - 1
        else s.input_text_first_displayed_char_index
      needs_render := true }
  else s

def input_delete (s : InputState) : InputState :=
  if s.input_text_cursor_index ≥ 0 then
    { s with
      input_text :=
        pyTake s.input_text s.input_text_cursor_index ++
          pyDrop s.input_text (s.input_text_cursor_index + 1)
      needs_render := true }
  else s

def input_left (s : InputState) : InputState :=
  if s.input_text_cursor_index > 0 then
    { s with
      input_text_cursor_index := s.input_text_cursor_index - 1
      input_text_first_displayed_char_index :=
        if s.input_text_cursor_index - 1 < s.input_text_first_displayed_char_index then
          s.input_text_cursor_index - 1
        else s.input_text_first_displayed_char_index
      needs_render := true }
  else s

def input_right (s : InputState) : InputState :=
  if s.input_text_cursor_index < (s.input_text.length : Int) then
    { s with
      input_text_cursor_index := s.input_text_cursor_index + 1
      input_text_first_displayed_char_index :=
        if s.input_text_cursor_index + 1 - s.input_text_first_displayed_char_index ≥
            s.entry_width then
          s.input_text_first_displayed_char_index + 1
        else s.input_text_first_displayed_char_index
      needs_render := true }
  else s

def input_home (s : InputState) : InputState :=
  { s with
    input_text_cursor_index := 0
    input_text_first_displayed_char_index := 0
    needs_render := true }

def input_end_key (s : InputState) : InputState :=
  { s with
    input_text_cursor_index := (s.input_text.length : Int)
    input_text_first_displayed_char_index :=
      if (s.input_text.length : Int) < s.entry_width then 0
      else (s.input_text.length : Int) - s.entry_width
    needs_render := true }

def input_insert (s : InputState) (ch : Char) : InputState :=
  { s with
    input_text :=
      pyTake s.input_text s.input_text_cursor_index ++ [ch] ++
        pyDrop s.input_text s.input_text_cursor_index
    input_text_cursor_index := s.input_text_cursor_index + 1
    input_text_first_displayed_char_index :=
      if s.input_text_cursor_index + 1 - s.input_text_first_displayed_char_index ≥
          s.entry_width then
        s.input_text_first_displayed_char_index + 1
      else s.input_text_first_displayed_char_index
    needs_render := true }

def input_handle_keystroke (s : InputState) (key : Int) : InputState :=
  if key = KEY_BACKSPACE ∨ key = keycode_BACKSPACE then input_backspace s
  else if key = KEY_DC ∨ key = keycode_DELETE then input_delete s
  else if key = KEY_LEFT then input_left s
  else if key = KEY_RIGHT then input_right s
  else if key = KEY_HOME then input_home s
  else if key = KEY_END then input_end_key s
  else if 0 ≤ key ∧ key ≤ 255 then
    (if s.allowed_input_chars.contains (Char.ofNat key.toNat) then
       input_insert s (Char.ofNat key.toNat)
     else s)
  else s

/-- The visible slice self.input_text[first : first + entry_width] painted by
InputPanel.render (line 693). -/
def clippedText (s : InputState) : List Char :=
  pyTake (pyDrop s.input_text s.input_text_first_displayed_char_index) s.entry_width

def InputWindowInv (s : InputState) : Prop :=
  0 ≤ s.input_text_first_displayed_char_index ∧
  s.input_text_first_displayed_char_index ≤ s.input_text_cursor_index ∧
  s.input_text_cursor_index ≤ s.input_text_first_displayed_char_index + s.entry_width ∧
  ((clippedText s).length : Int) ≤ s.entry_width

def StrongInputInv (s : InputState) : Prop :=
  1 ≤ s.entry_width ∧
  0 ≤ s.input_text_first_displayed_char_index ∧
  s.input_text_first_displayed_char_index ≤ s.input_text_cursor_index ∧
  s.input_text_cursor_index ≤ (s.input_text.length : Int) ∧
  s.input_text_cursor_index ≤ s.input_text_first_displayed_char_index + s.entry_width

/-! SelectableThread.run (lines 96-111): executes the task, stores either its
return value or the captured exception info, then writes the sentinel byte
(b: a newline, byte 10) and closes the write end of the pipe.  The run is
modelled as the trace of its effects, and the final object state as the fold
of that trace. -/

inductive ThreadEvent (ε α : Type) where
  | storeResult (v : α)
  | storeExcInfo (e : ε)
  | writePipe (b : Nat)
  | closeWritePipe

def SelectableThread_run {ε α : Type} (task : Option (Except ε α)) : List (ThreadEvent ε α) :=
  (match task with
   | none => []
   | some (Except.ok v) => [ThreadEvent.storeResult v]
   | some (Except.error e) => [ThreadEvent.storeExcInfo e]) ++
  [ThreadEvent.writePipe 10, ThreadEvent.closeWritePipe]

structure SelectableThreadState (ε α : Type) where
  callable_result : Option α
  callable_exception_info_tuple : Option ε
  pipe_buffer : List Nat
  write_fd_open : Bool

def applyThreadEvent {ε α : Type} (s : SelectableThreadState ε α) :
    ThreadEvent ε α → SelectableThreadState ε α
  | ThreadEvent.storeResult v => { s with callable_result := some v }
  | ThreadEvent.storeExcInfo e => { s with callable_exception_info_tuple := some e }
  | ThreadEvent.writePipe b => { s with pipe_buffer := s.pipe_buffer ++ [b] }
  | ThreadEvent.closeWritePipe => { s with write_fd_open := false }

def initialThreadState (ε α : Type) : SelectableThreadState ε α :=
  { callable_result := none
    callable_exception_info_tuple := none
    pipe_buffer := []
    write_fd_open := true }

def threadFinalState {ε α : Type} (task : Option (Except ε α)) : SelectableThreadState ε α :=
  (SelectableThread_run task).foldl applyThreadEvent (initialThreadState ε α)

def isPipeWrite {ε α : Type} : ThreadEvent ε α → Bool
  | ThreadEvent.writePipe _ => true
  | _ => false

def isPipeClose {ε α : Type} : ThreadEvent ε α → Bool
  | ThreadEvent.closeWritePipe => true
  | _ => false

/-! run_cancellable_thread (lines 936-967).  The foreground loop consumes the
keyboard keys the selector reports before the completion pipe fires; a key in
the cancel set raises UserCancelException at once, any other key is ignored.
Once the completion signal arrives the stored exception info, if any, is
surfaced (after optionally showing the exception dialog) as
AsyncThreadException; otherwise the stored result is returned. -/

inductive CancellableOutcome (α : Type) where
  | userCancelException
  | asyncThreadException (exception_dialog_shown : Bool)
  | result (v : Option α)
deriving DecidableEq

def run_cancellable_thread {ε α : Type} (cancel_keys : List Int)
    (show_exception_dialog : Bool) (keys_read_before_completion : List Int)
    (task_thread : SelectableThreadState ε α) : CancellableOutcome α :=
  match keys_read_before_completion with
  | [] =>
    if task_thread.callable_exception_info_tuple.isSome then
      CancellableOutcome.asyncThreadException show_exception_dialog
    else CancellableOutcome.result task_thread.callable_result
  | k :: ks =>
    if k ∈ cancel_keys then CancellableOutcome.userCancelException
    else run_cancellable_thread cancel_keys show_exception_dialog ks task_thread

def default_cancel_keys : List Int := [keycode_ESCAPE]

/-! MainMenu.run_modally (lines 994-1033).  A menu choice callback is
modelled by its outcome: Except.error carries the traceback dump lines that
the Python except-block would format.  One loop iteration either exits (on
escape, when quit_confirm allows), continues (possibly after displaying a
caught exception in a MessagePanel and logging it), or propagates an
uncaught error raised outside the try-block. -/

structure MenuState where
  panel : PanelState
  menu_choices : List (String × Option (Except (List String) Unit))
  has_logger : Bool

inductive MenuStep where
  | exited (key : Int)
  | continued (panel : PanelState) (displayed_exception : Option (List String))
      (logged_lines : List String)
  | raised (msg : String)
deriving DecidableEq

def exceptionPanelLines (dump : List String) : List String :=
  ["Exception occurred:", ""] ++ dump

def indexErrorDump : List String := ["IndexError: list index out of range"]

def run_modally_step (s : MenuState) (quit_confirm : Bool) (key : Int) : MenuStep :=
  if key = keycode_ESCAPE then
    (if quit_confirm then MenuStep.exited key else MenuStep.continued s.panel none [])
  else if key = keycode_RETURN then
    (match pyGet s.menu_choices s.panel.hilighted_row_index with
     | none =>
        MenuStep.continued s.panel (some (exceptionPanelLines indexErrorDump))
          (if s.has_logger then indexErrorDump else [])
     | some mc =>
        match mc.2 with
        | none => MenuStep.continued s.panel none []
        | some (Except.ok _) => MenuStep.continued s.panel none []
        | some (Except.error dump) =>
            MenuStep.continued s.panel (some (exceptionPanelLines dump))
              (if s.has_logger then dump else []))
  else
    (match handle_keystroke s.panel key with
     | none => MenuStep.raised "IndexError: list index out of range"
     | some p => MenuStep.continued p none [])

/-! Concrete states used by counterexamples and witnesses. -/

def demoColumn : Column := { text := "x", colour := 0, width := 1 }

def demoRow : Row := { columns := [demoColumn] }

def demoRow3 : Row := { columns := [demoColumn, demoColumn, demoColumn] }

def c2CounterState : PanelState :=
  { rows := [demoRow, demoRow]
    hilighted_row_index := 0
    hilighted_col_index := 0
    top_visible_row_index := 0
    content_height := 2
    needs_render := false }

def c2WitnessState : PanelState :=
  { rows := [demoRow, demoRow, demoRow, demoRow]
    hilighted_row_index := 1
    hilighted_col_index := 0
    top_visible_row_index := 0
    content_height := 2
    needs_render := false }

def c7State : PanelState :=
  { rows := [demoRow3]
    hilighted_row_index := 0
    hilighted_col_index := 1
    top_visible_row_index := 0
    content_height := 3
    needs_render := false }

def c10State : PanelState :=
  { rows := [demoRow]
    hilighted_row_index := 0
    hilighted_col_index := 0
    top_visible_row_index := 0
    content_height := 1
    needs_render := false }

def c10EmptyState : PanelState :=
  { rows := []
    hilighted_row_index := 0
    hilighted_col_index := 0
    top_visible_row_index := 0
    content_height := 3
    needs_render := false }

def c4Panel : PanelState :=
  { rows := [demoRow]
    hilighted_row_index := 0
    hilighted_col_index := 0
    top_visible_row_index := 0
    content_height := 1
    needs_render := false }

def c4Menu : MenuState :=
  { panel := c4Panel
    menu_choices := [("Scan folder", some (Except.error ["ValueError: boom"]))]
    has_logger := true }

/-! Helper lemmas. -/

theorem clampRow_bounds (num_rows r : Int) (h : 1 ≤ num_rows) :
    0 ≤ clampRow num_rows r ∧ clampRow num_rows r ≤ num_rows - 1 := by
  unfold clampRow
  split_ifs <;> omega

theorem clampRow_id (num_rows r : Int) (h0 : 0 ≤ r) (h1 : r ≤ num_rows - 1) :
    clampRow num_rows r = r := by
  unfold clampRow
  split_ifs <;> omega

theorem anchorTop_window (num_rows ch top r : Int) (hch : 1 ≤ ch) (ht : 0 ≤ top)
    (hr0 : 0 ≤ r) (hr1 : r ≤ num_rows - 1) :
    0 ≤ anchorTop num_rows ch top r ∧ anchorTop num_rows ch top r ≤ r ∧
      r < anchorTop num_rows ch top r + ch := by
  unfold anchorTop clampRow
  split_ifs <;> omega

theorem pyGet_eq_some {α : Type} (xs : List α) (i : Int) (h0 : 0 ≤ i)
    (h1 : i < (xs.length : Int)) : ∃ a, pyGet xs i = some a := by
  unfold pyGet
  rw [if_neg (by omega)]
  have hlt : i.toNat < xs.length := by omega
  exact ⟨xs[i.toNat], by simp [List.getElem?_eq_getElem hlt]⟩

theorem pyGet_nil {α : Type} (i : Int) : pyGet ([] : List α) i = none := by
  unfold pyGet
  split_ifs <;> simp

theorem handle_keystroke_eq {s : PanelState} {key : Int} {row : Row}
    (h : pyGet s.rows (clampRow (numRows s) (proposedIndices s key).1) = some row) :
    handle_keystroke s key =
      some (commitMove s
        (clampRow (numRows s) (proposedIndices s key).1)
        (adjustCol s.hilighted_row_index
          (clampRow (numRows s) (proposedIndices s key).1)
          (proposedIndices s key).2 ((row.columns.length : Int)))
        (anchorTop (numRows s) s.content_height s.top_visible_row_index
          (clampRow (numRows s) (proposedIndices s key).1))) := by
  unfold handle_keystroke
  rw [h]

theorem commitMove_row (s : PanelState) (r c t : Int) :
    (commitMove s r c t).hilighted_row_index = r := rfl

theorem commitMove_col (s : PanelState) (r c t : Int) :
    (commitMove s r c t).hilighted_col_index = c := rfl

theorem commitMove_top (s : PanelState) (r c t : Int) :
    (commitMove s r c t).top_visible_row_index = t := rfl

theorem commitMove_rows (s : PanelState) (r c t : Int) :
    (commitMove s r c t).rows = s.rows := rfl

theorem commitMove_ch (s : PanelState) (r c t : Int) :
    (commitMove s r c t).content_height = s.content_height := rfl

theorem hk_total (s : PanelState) (key : Int) (hnr : 1 ≤ numRows s) :
    ∃ s', handle_keystroke s key = some s' ∧
      s'.rows = s.rows ∧ s'.content_height = s.content_height ∧
      s'.hilighted_row_index = clampRow (numRows s) (proposedIndices s key).1 ∧
      s'.top_visible_row_index =
        anchorTop (numRows s) s.content_height s.top_visible_row_index
          (clampRow (numRows s) (proposedIndices s key).1) := by
  obtain ⟨hb0, hb1⟩ := clampRow_bounds (numRows s) (proposedIndices s key).1 hnr
  have hlen : clampRow (numRows s) (proposedIndices s key).1 < (s.rows.length : Int) := by
    have hb := hb1
    unfold numRows at hb ⊢
    omega
  obtain ⟨row, hrow⟩ := pyGet_eq_some s.rows _ hb0 hlen
  exact ⟨_, handle_keystroke_eq hrow, rfl, rfl, rfl, rfl⟩

theorem hk_valid (s : PanelState) (key : Int) (hv : ValidState s)
    (hch : 1 ≤ s.content_height) :
    ∃ s', handle_keystroke s key = some s' ∧ ValidState s' ∧
      s'.rows = s.rows ∧ s'.content_height = s.content_height := by
  obtain ⟨h1, h2, h3, h4, h5⟩ := hv
  have hnr : 1 ≤ numRows s := by omega
  obtain ⟨s', hs', hrows, hc, hrow, htop⟩ := hk_total s key hnr
  obtain ⟨hb0, hb1⟩ := clampRow_bounds (numRows s) (proposedIndices s key).1 hnr
  obtain ⟨ha0, ha1, ha2⟩ :=
    anchorTop_window (numRows s) s.content_height s.top_visible_row_index
      (clampRow (numRows s) (proposedIndices s key).1) hch h1 hb0 hb1
  refine ⟨s', hs', ?_, hrows, hc⟩
  have hnr' : numRows s' = numRows s := by
    unfold numRows
    rw [hrows]
  unfold ValidState
  refine ⟨?_, ?_, ?_, ?_, ?_⟩ <;> omega

theorem stepKeys_valid (s : PanelState) (keys : List Int) (hv : ValidState s)
    (hch : 1 ≤ s.content_height) :
    ∃ s', stepKeys s keys = some s' ∧ ValidState s' ∧
      s'.rows = s.rows ∧ s'.content_height = s.content_height := by
  induction keys generalizing s with
  | nil => exact ⟨s, rfl, hv, rfl, rfl⟩
  | cons k ks ih =>
    obtain ⟨s1, hs1, hv1, hr1, hc1⟩ := hk_valid s k hv hch
    obtain ⟨s', hs', hv', hr', hc'⟩ := ih s1 hv1 (by rw [hc1]; exact hch)
    refine ⟨s', ?_, hv', by rw [hr', hr1], by rw [hc', hc1]⟩
    simp [stepKeys, hs1, hs']

theorem proposed_up (s : PanelState) :
    proposedIndices s KEY_UP = (s.hilighted_row_index - 1, s.hilighted_col_index) := rfl

theorem proposed_down (s : PanelState) :
    proposedIndices s KEY_DOWN = (s.hilighted_row_index + 1, s.hilighted_col_index) := rfl

theorem proposed_left (s : PanelState) :
    proposedIndices s KEY_LEFT = (s.hilighted_row_index, s.hilighted_col_index - 1) := rfl

theorem proposed_right (s : PanelState) :
    proposedIndices s KEY_RIGHT = (s.hilighted_row_index, s.hilighted_col_index + 1) := rfl

theorem hk_down_row (s : PanelState) (hv : ValidState s) (hch : 1 ≤ s.content_height) :
    ∃ s', handle_keystroke s KEY_DOWN = some s' ∧ ValidState s' ∧
      s'.rows = s.rows ∧ s'.content_height = s.content_height ∧
      s'.hilighted_row_index = min (s.hilighted_row_index + 1) (numRows s - 1) := by
  obtain ⟨h1, h2, h3, h4, h5⟩ := hv
  have hnr : 1 ≤ numRows s := by omega
  obtain ⟨s', hs', hrows, hc, hrow, htop⟩ := hk_total s KEY_DOWN hnr
  obtain ⟨s'', hs'', hv'', hrows'', hc''⟩ := hk_valid s KEY_DOWN ⟨h1, h2, h3, h4, h5⟩ hch
  have heq : s'' = s' := by
    rw [hs'] at hs''
    exact (Option.some.inj hs'').symm
  subst heq
  refine ⟨s'', hs', hv'', hrows, hc, ?_⟩
  rw [hrow, proposed_down]
  unfold clampRow
  split_ifs <;> omega

theorem hk_up_row (s : PanelState) (hv : ValidState s) (hch : 1 ≤ s.content_height) :
    ∃ s', handle_keystroke s KEY_UP = some s' ∧ ValidState s' ∧
      s'.rows = s.rows ∧ s'.content_height = s.content_height ∧
      s'.hilighted_row_index = max (s.hilighted_row_index - 1) 0 := by
  obtain ⟨h1, h2, h3, h4, h5⟩ := hv
  have hnr : 1 ≤ numRows s := by omega
  obtain ⟨s', hs', hrows, hc, hrow, htop⟩ := hk_total s KEY_UP hnr
  obtain ⟨s'', hs'', hv'', hrows'', hc''⟩ := hk_valid s KEY_UP ⟨h1, h2, h3, h4, h5⟩ hch
  have heq : s'' = s' := by
    rw [hs'] at hs''
    exact (Option.some.inj hs'').symm
  subst heq
  refine ⟨s'', hs', hv'', hrows, hc, ?_⟩
  rw [hrow, proposed_up]
  unfold clampRow
  split_ifs <;> omega

theorem stepKeys_down_replicate (s : PanelState) (n : Nat) (hv : ValidState s)
    (hch : 1 ≤ s.content_height) :
    ∃ s', stepKeys s (List.replicate n KEY_DOWN) = some s' ∧ ValidState s' ∧
      s'.rows = s.rows ∧ s'.content_height = s.content_height ∧
      s'.hilighted_row_index = min (s.hilighted_row_index + n) (numRows s - 1) := by
  induction n generalizing s with
  | zero =>
    refine ⟨s, rfl, hv, rfl, rfl, ?_⟩
    obtain ⟨h1, h2, h3, h4, h5⟩ := hv
    omega
  | succ n ih =>
    obtain ⟨s1, hs1, hv1, hr1, hc1, hrow1⟩ := hk_down_row s hv hch
    obtain ⟨s', hs', hv', hr', hc', hrow'⟩ := ih s1 hv1 (by rw [hc1]; exact hch)
    refine ⟨s', ?_, hv', by rw [hr', hr1], by rw [hc', hc1], ?_⟩
    · rw [List.replicate_succ]
      simp [stepKeys, hs1, hs']
    · have hnr1 : numRows s1 = numRows s := by
        unfold numRows
        rw [hr1]
      obtain ⟨h1, h2, h3, h4, h5⟩ := hv
      rw [hrow', hrow1, hnr1]
      push_cast
      omega

theorem stepKeys_up_replicate (s : PanelState) (n : Nat) (hv : ValidState s)
    (hch : 1 ≤ s.content_height) :
    ∃ s', stepKeys s (List.replicate n KEY_UP) = some s' ∧ ValidState s' ∧
      s'.rows = s.rows ∧ s'.content_height = s.content_height ∧
      s'.hilighted_row_index = max (s.hilighted_row_index - n) 0 := by
  induction n generalizing s with
  | zero =>
    refine ⟨s, rfl, hv, rfl, rfl, ?_⟩
    obtain ⟨h1, h2, h3, h4, h5⟩ := hv
    omega
  | succ n ih =>
    obtain ⟨s1, hs1, hv1, hr1, hc1, hrow1⟩ := hk_up_row s hv hch
    obtain ⟨s', hs', hv', hr', hc', hrow'⟩ := ih s1 hv1 (by rw [hc1]; exact hch)
    refine ⟨s', ?_, hv', by rw [hr', hr1], by rw [hc', hc1], ?_⟩
    · rw [List.replicate_succ]
      simp [stepKeys, hs1, hs']
    · obtain ⟨h1, h2, h3, h4, h5⟩ := hv
      rw [hrow', hrow1]
      push_cast
      omega

/-! Claim theorems. -/

/-- C2 (amended): from any valid panel state (content height at least one,
at least one row, highlighted row inside the visible window), a run of N Down
keystrokes leaves the highlighted row at clamp(i0 + N, 0, num_rows - 1), a
run of N Up keystrokes leaves it at clamp(i0 - N, 0, num_rows - 1), and after
every prefix of any Up/Down keystroke sequence the highlighted row lies
within [top_visible_row_index, top_visible_row_index + content_height).  The
clamp(i0 + net_steps) formula of the original claim holds only for such
monotone runs: clamping is applied per keystroke, so moves absorbed at a
boundary are not recovered by later opposite moves. -/
theorem scrollingPanel_monotone_updown (s : PanelState) (n : Nat)
    (hv : ValidState s) (hch : 1 ≤ s.content_height) :
    (∃ s', stepKeys s (List.replicate n KEY_DOWN) = some s' ∧
       s'.hilighted_row_index = intClamp (s.hilighted_row_index + n) 0 (numRows s - 1) ∧
       windowContains s') ∧
    (∃ s', stepKeys s (List.replicate n KEY_UP) = some s' ∧
       s'.hilighted_row_index = intClamp (s.hilighted_row_index - n) 0 (numRows s - 1) ∧
       windowContains s') ∧
    (∀ keys : List Int, (∀ k ∈ keys, k = KEY_UP ∨ k = KEY_DOWN) →
       ∃ s', stepKeys s keys = some s' ∧ windowContains s') := by
  obtain ⟨h1, h2, h3, h4, h5⟩ := hv
  refine ⟨?_, ?_, ?_⟩
  · obtain ⟨s', hs', hv', hr', hc', hrow'⟩ :=
      stepKeys_down_replicate s n ⟨h1, h2, h3, h4, h5⟩ hch
    refine ⟨s', hs', ?_, hv'.2.1, hv'.2.2.1⟩
    rw [hrow']
    unfold intClamp
    omega
  · obtain ⟨s', hs', hv', hr', hc', hrow'⟩ :=
      stepKeys_up_replicate s n ⟨h1, h2, h3, h4, h5⟩ hch
    refine ⟨s', hs', ?_, hv'.2.1, hv'.2.2.1⟩
    rw [hrow']
    unfold intClamp
    omega
  · intro keys _
    obtain ⟨s', hs', hv', _, _⟩ := stepKeys_valid s keys ⟨h1, h2, h3, h4, h5⟩ hch
    exact ⟨s', hs', hv'.2.1, hv'.2.2.1⟩

/-- C2 counterexample: in a two-row panel with content height 2, starting at
highlighted row 0, the sequence [Up, Down] has net_steps = 0, so the claimed
formula predicts clamp(0 + 0, 0, 1) = 0; the code leaves the highlighted row
at 1, because the Up at the top boundary is absorbed by the per-keystroke
clamp while the Down still moves. -/
theorem scrollingPanel_updown_clamp_counterexample :
    (stepKeys c2CounterState [KEY_UP, KEY_DOWN]).map
        (fun s => s.hilighted_row_index) = some 1 ∧
    intClamp (c2CounterState.hilighted_row_index + (1 - 1)) 0
        (numRows c2CounterState - 1) = 0 ∧
    (1 : Int) ≠ 0 := by decide

/-- C2 witness: the amended theorem applied to a concrete four-row panel with
content height 2, starting at highlighted row 1, for three keystrokes. -/
theorem scrollingPanel_monotone_updown_witness :
    (∃ s', stepKeys c2WitnessState (List.replicate 3 KEY_DOWN) = some s' ∧
       s'.hilighted_row_index =
         intClamp (c2WitnessState.hilighted_row_index + 3) 0 (numRows c2WitnessState - 1) ∧
       windowContains s') ∧
    (∃ s', stepKeys c2WitnessState (List.replicate 3 KEY_UP) = some s' ∧
       s'.hilighted_row_index =
         intClamp (c2WitnessState.hilighted_row_index - 3) 0 (numRows c2WitnessState - 1) ∧
       windowContains s') ∧
    (∀ keys : List Int, (∀ k ∈ keys, k = KEY_UP ∨ k = KEY_DOWN) →
       ∃ s', stepKeys c2WitnessState keys = some s' ∧ windowContains s') :=
  scrollingPanel_monotone_updown c2WitnessState 3
    (by unfold ValidState numRows; decide) (by decide)

/-- C8: with no intervening mutation a second render() call never paints
(the first call cleared the dirty flag, or nothing was dirty to begin with),
and render(force) always paints regardless of the dirty flag. -/
theorem render_idempotent_and_force (s : PanelState) :
    render (render s false).1 false = ((render s false).1, none) ∧
    (render s true).2.isSome = true := by
  cases h : s.needs_render <;> simp [render, h]

/-- C10: when the row set is non-empty, handle_keystroke always succeeds (the
row lookup self.rows[hilighted_row_index] is in range) and leaves the
highlighted row index in [0, num_rows - 1]; the precondition is necessary:
with an empty row set the clamped row index (num_rows - 1 = -1, or 0 when the
proposal was negative) indexes an empty list and the lookup raises. -/
theorem handle_keystroke_nonempty_safe (s : PanelState) (key : Int) :
    (1 ≤ numRows s →
      ∃ s', handle_keystroke s key = some s' ∧
        0 ≤ s'.hilighted_row_index ∧ s'.hilighted_row_index ≤ numRows s - 1) ∧
    (numRows s = 0 → handle_keystroke s key = none) := by
  constructor
  · intro hnr
    obtain ⟨s', hs', hrows, hc, hrow, htop⟩ := hk_total s key hnr
    obtain ⟨hb0, hb1⟩ := clampRow_bounds (numRows s) (proposedIndices s key).1 hnr
    exact ⟨s', hs', by omega, by omega⟩
  · intro h0
    have hlen : s.rows.length = 0 := by
      unfold numRows at h0
      omega
    have hnil : s.rows = [] := List.length_eq_zero.mp hlen
    unfold handle_keystroke
    rw [hnil, pyGet_nil]

/-- C10 witness: the theorem applied to a concrete one-row panel (the lookup
succeeds, the row index stays in range) and to a concrete empty panel (the
lookup fails). -/
theorem handle_keystroke_nonempty_safe_witness :
    (∃ s', handle_keystroke c10State KEY_DOWN = some s' ∧
       0 ≤ s'.hilighted_row_index ∧ s'.hilighted_row_index ≤ numRows c10State - 1) ∧
    handle_keystroke c10EmptyState KEY_DOWN = none :=
  ⟨(handle_keystroke_nonempty_safe c10State KEY_DOWN).1 (by decide),
   (handle_keystroke_nonempty_safe c10EmptyState KEY_DOWN).2 (by decide)⟩

/-- C7: from a valid state, a Left or Right keystroke never changes the
highlighted row, so column wrapping happens only when the row did not change
on that keystroke, and it wraps within the current row's column count: Left
at column 0 wraps to the last column, Right at the last column wraps to
column 0, otherwise the column moves by one.  The "moving to a new row"
branch of the claim (reset to column 0 or clamp to the new row's last
column) is vacuous for Left/Right, since the row is unchanged. -/
theorem handle_keystroke_leftright (s : PanelState) (row : Row)
    (hv : ValidState s)
    (hrow : pyGet s.rows s.hilighted_row_index = some row)
    (hc0 : 0 ≤ s.hilighted_col_index)
    (hc1 : s.hilighted_col_index < (row.columns.length : Int)) :
    (∃ s', handle_keystroke s KEY_LEFT = some s' ∧
       s'.hilighted_row_index = s.hilighted_row_index ∧
       s'.hilighted_col_index =
         (if s.hilighted_col_index = 0 then (row.columns.length : Int) - 1
          else s.hilighted_col_index - 1)) ∧
    (∃ s', handle_keystroke s KEY_RIGHT = some s' ∧
       s'.hilighted_row_index = s.hilighted_row_index ∧
       s'.hilighted_col_index =
         (if s.hilighted_col_index = (row.columns.length : Int) - 1 then 0
          else s.hilighted_col_index + 1)) := by
  obtain ⟨h1, h2, h3, h4, h5⟩ := hv
  have hid : clampRow (numRows s) s.hilighted_row_index = s.hilighted_row_index :=
    clampRow_id (numRows s) s.hilighted_row_index h4 h5
  constructor
  · have hkey : clampRow (numRows s) (proposedIndices s KEY_LEFT).1 =
        s.hilighted_row_index := by
      rw [proposed_left]
      exact hid
    have hget : pyGet s.rows (clampRow (numRows s) (proposedIndices s KEY_LEFT).1) =
        some row := by
      rw [hkey]
      exact hrow
    refine ⟨_, handle_keystroke_eq hget, ?_, ?_⟩
    · rw [commitMove_row, hkey]
    · rw [commitMove_col, hkey, proposed_left]
      dsimp only
      unfold adjustCol
      split_ifs <;> omega
  · have hkey : clampRow (numRows s) (proposedIndices s KEY_RIGHT).1 =
        s.hilighted_row_index := by
      rw [proposed_right]
      exact hid
    have hget : pyGet s.rows (clampRow (numRows s) (proposedIndices s KEY_RIGHT).1) =
        some row := by
      rw [hkey]
      exact hrow
    refine ⟨_, handle_keystroke_eq hget, ?_, ?_⟩
    · rw [commitMove_row, hkey]
    · rw [commitMove_col, hkey, proposed_right]
      dsimp only
      unfold adjustCol
      split_ifs <;> omega

/-- C7 witness: the theorem applied to a concrete one-row panel whose row has
three columns, with the middle column highlighted. -/
theorem handle_keystroke_leftright_witness :
    (∃ s', handle_keystroke c7State KEY_LEFT = some s' ∧
       s'.hilighted_row_index = c7State.hilighted_row_index ∧
       s'.hilighted_col_index =
         (if c7State.hilighted_col_index = 0 then (demoRow3.columns.length : Int) - 1
          else c7State.hilighted_col_index - 1)) ∧
    (∃ s', handle_keystroke c7State KEY_RIGHT = some s' ∧
       s'.hilighted_row_index = c7State.hilighted_row_index ∧
       s'.hilighted_col_index =
         (if c7State.hilighted_col_index = (demoRow3.columns.length : Int) - 1 then 0
          else c7State.hilighted_col_index + 1)) :=
  handle_keystroke_leftright c7State demoRow3
    (by unfold ValidState numRows; decide) (by decide) (by decide) (by decide)

/-- C6 counterexample: an absolute height of 30 cells on a 24-row screen is
used as-is by set_geometry, exceeding the physical screen height, so the
"height/width are always clamped to the physical screen size" claim fails
for absolute cell-count inputs. -/
theorem set_geometry_clamp_counterexample :
    set_geometry_height (GeomInput.cells 30) 24 6 0 = 30 ∧
    ¬(set_geometry_height (GeomInput.cells 30) 24 6 0 ≤ 24) := by decide

/-- C6 (amended): for unset, fractional, and non-positive (inset from the
screen edge) geometry inputs the computed height and width are at most the
physical screen height and width; a positive absolute cell count is used as
given and is not clamped to the screen. -/
theorem set_geometry_clamped_nonabsolute (hgeom wgeom : GeomInput)
    (stdscr_height stdscr_width num_rows num_header_rows rows_max_width : Int)
    (hh : GeomNonAbsolute hgeom) (hw : GeomNonAbsolute wgeom) :
    set_geometry_height hgeom stdscr_height num_rows num_header_rows ≤ stdscr_height ∧
    set_geometry_width wgeom stdscr_width rows_max_width ≤ stdscr_width := by
  constructor
  · cases hgeom with
    | unset =>
      simp only [set_geometry_height]
      exact min_le_left _ _
    | fraction q =>
      simp only [set_geometry_height]
      exact min_le_left _ _
    | cells n =>
      have hn : n ≤ 0 := hh
      simp only [set_geometry_height]
      rw [if_pos hn]
      omega
  · cases wgeom with
    | unset =>
      simp only [set_geometry_width]
      exact min_le_left _ _
    | fraction q =>
      simp only [set_geometry_width]
      exact min_le_left _ _
    | cells n =>
      have hn : n ≤ 0 := hw
      simp only [set_geometry_width]
      rw [if_pos hn]
      omega

/-- C6 witness: the amended theorem applied to an unset height on a 24-row
screen and an inset width of 2 on an 80-column screen. -/
theorem set_geometry_clamped_nonabsolute_witness :
    set_geometry_height GeomInput.unset 24 6 1 ≤ 24 ∧
    set_geometry_width (GeomInput.cells (-2)) 80 30 ≤ 80 :=
  set_geometry_clamped_nonabsolute GeomInput.unset (GeomInput.cells (-2)) 24 80 6 1 30
    True.intro (show (-2 : Int) ≤ 0 by decide)

theorem optMax_none_right (a : Option Int) : optMax a none = a := by
  cases a <;> rfl

theorem mergeWidths_getElem (cs : List Column) :
    ∀ (ws : List Int) (i : Nat),
      (mergeWidths ws cs)[i]? = optMax ws[i]? ((cs[i]?).map (fun c => c.width)) := by
  induction cs with
  | nil =>
    intro ws i
    simp [mergeWidths, optMax_none_right]
  | cons c cs ih =>
    intro ws i
    cases ws with
    | nil =>
      cases i with
      | zero => simp [mergeWidths, optMax]
      | succ j => simpa [mergeWidths] using ih [] j
    | cons w ws =>
      cases i with
      | zero => simp [mergeWidths, optMax]
      | succ j => simpa [mergeWidths] using ih ws j

theorem set_rows_fold_getElem (rows : List Row) :
    ∀ (ws : List Int) (i : Nat),
      (rows.foldl (fun ws r => mergeWidths ws r.columns) ws)[i]? =
        rows.foldl (fun acc r => optMax acc ((r.columns[i]?).map (fun c => c.width)))
          ws[i]? := by
  induction rows with
  | nil =>
    intro ws i
    rfl
  | cons r rows ih =>
    intro ws i
    simp only [List.foldl_cons]
    rw [ih, mergeWidths_getElem]

theorem foldl_optMax_some (g : Row → Option Int) (l : List Row) :
    ∀ a : Int,
      l.foldl (fun acc r => optMax acc (g r)) (some a) =
        listMaxInt (a :: l.filterMap g) := by
  induction l with
  | nil =>
    intro a
    rfl
  | cons r t ih =>
    intro a
    simp only [List.foldl_cons]
    cases hg : g r with
    | none =>
      rw [List.filterMap_cons_none hg, optMax_none_right]
      exact ih a
    | some b =>
      rw [List.filterMap_cons_some hg]
      have h1 : optMax (some a) (some b) = some (max a b) := rfl
      rw [h1, ih (max a b)]
      rfl

theorem foldl_optMax_none (g : Row → Option Int) (l : List Row) :
    l.foldl (fun acc r => optMax acc (g r)) none = listMaxInt (l.filterMap g) := by
  induction l with
  | nil => rfl
  | cons r t ih =>
    simp only [List.foldl_cons]
    cases hg : g r with
    | none =>
      rw [List.filterMap_cons_none hg]
      have h1 : optMax none (none : Option Int) = none := rfl
      rw [h1]
      exact ih
    | some b =>
      rw [List.filterMap_cons_some hg]
      have h1 : optMax none (some b) = some b := rfl
      rw [h1]
      exact foldl_optMax_some g t b

/-- C3: the per-column width computed by set_rows (seeded from the header row
set by set_header, if any) equals, at every column index i, the maximum over
all rows -- the header row included -- of the width of that row's column i
(none at indices no row reaches). -/
theorem set_rows_column_width_is_max (header_row : Option Row) (new_rows : List Row)
    (i : Nat) :
    (set_rows_column_widths header_row new_rows)[i]? =
      specColumnWidth header_row new_rows i := by
  unfold set_rows_column_widths specColumnWidth
  rw [set_rows_fold_getElem]
  cases header_row with
  | none =>
    simp only [headerColumnWidths, headerRowList, List.getElem?_nil, List.nil_append]
    exact foldl_optMax_none _ _
  | some h =>
    simp only [headerColumnWidths, headerRowList, List.cons_append, List.nil_append]
    rw [List.getElem?_map]
    cases hg : (h.columns[i]?).map (fun c => c.width) with
    | none =>
      have hg' : (fun r => (r.columns[i]?).map (fun c => c.width)) h = none := hg
      rw [@List.filterMap_cons_none Row Int
        (fun r => (r.columns[i]?).map (fun c => c.width)) h new_rows hg']
      exact foldl_optMax_none _ _
    | some b =>
      have hg' : (fun r => (r.columns[i]?).map (fun c => c.width)) h = some b := hg
      rw [@List.filterMap_cons_some Row Int
        (fun r => (r.columns[i]?).map (fun c => c.width)) h new_rows b hg']
      exact foldl_optMax_some _ _ b

theorem threadFinalState_ok {ε α : Type} (v : α) :
    threadFinalState (some (Except.ok v : Except ε α)) =
      { callable_result := some v
        callable_exception_info_tuple := none
        pipe_buffer := [10]
        write_fd_open := false } := rfl

theorem threadFinalState_error {ε α : Type} (e : ε) :
    threadFinalState (some (Except.error e : Except ε α)) =
      { callable_result := none
        callable_exception_info_tuple := some e
        pipe_buffer := [10]
        write_fd_open := false } := rfl

/-- C5: for every task outcome, one execution of SelectableThread.run stores
either the return value in callable_result (and leaves the exception slot
empty) or the captured exception info in callable_exception_info_tuple (and
leaves the result slot empty), never both, and on every path its trace
contains exactly one pipe write -- the single sentinel byte 10 -- and exactly
one close of the write end. -/
theorem selectableThread_run_signals_once {ε α : Type} (outcome : Except ε α) :
    (∀ v, outcome = Except.ok v →
       (threadFinalState (some outcome)).callable_result = some v ∧
       (threadFinalState (some outcome)).callable_exception_info_tuple = none) ∧
    (∀ e, outcome = Except.error e →
       (threadFinalState (some outcome)).callable_result = none ∧
       (threadFinalState (some outcome)).callable_exception_info_tuple = some e) ∧
    ¬((threadFinalState (some outcome)).callable_result.isSome = true ∧
      (threadFinalState (some outcome)).callable_exception_info_tuple.isSome = true) ∧
    (SelectableThread_run (some outcome)).countP isPipeWrite = 1 ∧
    (SelectableThread_run (some outcome)).countP isPipeClose = 1 ∧
    (threadFinalState (some outcome)).pipe_buffer = [10] ∧
    (threadFinalState (some outcome)).write_fd_open = false := by
  cases outcome with
  | ok v =>
    refine ⟨?_, ?_, ?_, rfl, rfl, rfl, rfl⟩
    · intro v' h
      injection h with h2
      subst h2
      exact ⟨rfl, rfl⟩
    · intro e h
      exact absurd h (by intro hh; exact Except.noConfusion hh)
    · rw [threadFinalState_ok]
      simp
  | error e =>
    refine ⟨?_, ?_, ?_, rfl, rfl, rfl, rfl⟩
    · intro v' h
      exact absurd h (by intro hh; exact Except.noConfusion hh)
    · intro e' h
      injection h with h2
      subst h2
      exact ⟨rfl, rfl⟩
    · rw [threadFinalState_error]
      simp

/-- C5 witness: the theorem applied to a task returning 7 and to a task
raising, at concrete types. -/
theorem selectableThread_run_signals_once_witness :
    ((threadFinalState (some (Except.ok 7 : Except String Nat))).callable_result = some 7 ∧
     (threadFinalState (some (Except.ok 7 : Except String Nat))).callable_exception_info_tuple =
       none) ∧
    ((threadFinalState (some (Except.error "boom" : Except String Nat))).callable_result =
       none ∧
     (threadFinalState
         (some (Except.error "boom" : Except String Nat))).callable_exception_info_tuple =
       some "boom") :=
  ⟨(selectableThread_run_signals_once (Except.ok 7 : Except String Nat)).1 7 rfl,
   (selectableThread_run_signals_once (Except.error "boom" : Except String Nat)).2.1
     "boom" rfl⟩

/-- C1: for every task handed to run_cancellable_thread (with the exception
dialog enabled, as at the call sites): if any key read from the keyboard
source before the completion signal is in the cancel set, the call resolves
to the user-cancellation indicator (UserCancelException); otherwise, if the
task raised, the call resolves to the captured-worker-exception indicator
(AsyncThreadException) with the exception dialog shown; otherwise it returns
the task's stored return value. -/
theorem run_cancellable_thread_contract {ε α : Type} (cancel_keys keys : List Int)
    (outcome : Except ε α) :
    ((∃ k, k ∈ keys ∧ k ∈ cancel_keys) →
       run_cancellable_thread cancel_keys true keys (threadFinalState (some outcome)) =
         CancellableOutcome.userCancelException) ∧
    ((∀ k ∈ keys, k ∉ cancel_keys) →
       (∀ e, outcome = Except.error e →
          run_cancellable_thread cancel_keys true keys (threadFinalState (some outcome)) =
            CancellableOutcome.asyncThreadException true) ∧
       (∀ v, outcome = Except.ok v →
          run_cancellable_thread cancel_keys true keys (threadFinalState (some outcome)) =
            CancellableOutcome.result (some v))) := by
  induction keys with
  | nil =>
    constructor
    · rintro ⟨k, hk, _⟩
      exact absurd hk (List.not_mem_nil k)
    · intro _
      constructor
      · rintro e rfl
        rw [threadFinalState_error]
        rfl
      · rintro v rfl
        rw [threadFinalState_ok]
        rfl
  | cons k ks ih =>
    constructor
    · rintro ⟨k', hk', hmem⟩
      rcases List.mem_cons.mp hk' with rfl | htail
      · unfold run_cancellable_thread
        rw [if_pos hmem]
      · by_cases hkc : k ∈ cancel_keys
        · unfold run_cancellable_thread
          rw [if_pos hkc]
        · unfold run_cancellable_thread
          rw [if_neg hkc]
          exact ih.1 ⟨k', htail, hmem⟩
    · intro hnone
      have hk : k ∉ cancel_keys := hnone k (List.mem_cons_self k ks)
      have htail : ∀ x ∈ ks, x ∉ cancel_keys := fun x hx =>
        hnone x (List.mem_cons_of_mem k hx)
      constructor
      · rintro e rfl
        unfold run_cancellable_thread
        rw [if_neg hk]
        exact (ih.2 htail).1 e rfl
      · rintro v rfl
        unfold run_cancellable_thread
        rw [if_neg hk]
        exact (ih.2 htail).2 v rfl

/-- C1 witness: the theorem applied with cancel set [ESCAPE]: a run where the
key 27 arrives before completion is user-cancelled even though the task would
have returned; a run with no cancel key surfaces the worker exception with
the dialog shown; a run with no cancel key returns the stored value. -/
theorem run_cancellable_thread_contract_witness :
    run_cancellable_thread [27] true [65, 27]
        (threadFinalState (some (Except.ok 5 : Except String Nat))) =
      CancellableOutcome.userCancelException ∧
    run_cancellable_thread [27] true [65]
        (threadFinalState (some (Except.error "boom" : Except String Nat))) =
      CancellableOutcome.asyncThreadException true ∧
    run_cancellable_thread [27] true [65]
        (threadFinalState (some (Except.ok 5 : Except String Nat))) =
      CancellableOutcome.result (some 5) :=
  ⟨(run_cancellable_thread_contract [27] [65, 27] (Except.ok 5 : Except String Nat)).1
     ⟨27, by decide, by decide⟩,
   ((run_cancellable_thread_contract [27] [65] (Except.error "boom" : Except String Nat)).2
     (by decide)).1 "boom" rfl,
   ((run_cancellable_thread_contract [27] [65] (Except.ok 5 : Except String Nat)).2
     (by decide)).2 5 rfl⟩

/-- C4: on the confirm (return) key, one iteration of MainMenu.run_modally
always continues the loop -- it never exits and never propagates an error --
and when the selected callback raises, the caught exception dump is displayed
in a MessagePanel (prefixed by the "Exception occurred:" banner row and a
blank row) and written to the logger when one is installed. -/
theorem run_modally_catches_callback_exceptions (s : MenuState) (quit_confirm : Bool) :
    (∃ p d l, run_modally_step s quit_confirm keycode_RETURN = MenuStep.continued p d l) ∧
    (∀ label dump,
       pyGet s.menu_choices s.panel.hilighted_row_index =
         some (label, some (Except.error dump)) →
       run_modally_step s quit_confirm keycode_RETURN =
         MenuStep.continued s.panel (some (exceptionPanelLines dump))
           (if s.has_logger then dump else [])) := by
  have hne : ¬(keycode_RETURN = keycode_ESCAPE) := by decide
  constructor
  · unfold run_modally_step
    rw [if_neg hne, if_pos rfl]
    cases hmc : pyGet s.menu_choices s.panel.hilighted_row_index with
    | none => exact ⟨_, _, _, rfl⟩
    | some mc =>
      dsimp only
      cases hcb : mc.2 with
      | none => exact ⟨_, _, _, rfl⟩
      | some r =>
        cases r with
        | ok u => exact ⟨_, _, _, rfl⟩
        | error dump => exact ⟨_, _, _, rfl⟩
  · intro label dump hsel
    unfold run_modally_step
    rw [if_neg hne, if_pos rfl, hsel]

/-- C4 witness: the theorem applied to a concrete menu whose selected
callback raises, with a logger installed. -/
theorem run_modally_catches_callback_exceptions_witness :
    run_modally_step c4Menu true keycode_RETURN =
      MenuStep.continued c4Menu.panel (some (exceptionPanelLines ["ValueError: boom"]))
        (if c4Menu.has_logger then ["ValueError: boom"] else []) :=
  (run_modally_catches_callback_exceptions c4Menu true).2 "Scan folder"
    ["ValueError: boom"] rfl

theorem pyTake_length_le {α : Type} (xs : List α) (i : Int) (h : 0 ≤ i) :
    ((pyTake xs i).length : Int) ≤ i := by
  unfold pyTake
  rw [if_neg (by omega)]
  simp only [List.length_take]
  omega

theorem pyTake_length_of {α : Type} (xs : List α) (i : Int) (h0 : 0 ≤ i)
    (h1 : i ≤ (xs.length : Int)) : ((pyTake xs i).length : Int) = i := by
  unfold pyTake
  rw [if_neg (by omega)]
  simp only [List.length_take]
  omega

theorem pyDrop_length {α : Type} (xs : List α) (i : Int) (h0 : 0 ≤ i) :
    ((pyDrop xs i).length : Int) =
      (xs.length : Int) - min i (xs.length : Int) := by
  unfold pyDrop
  rw [if_neg (by omega)]
  simp only [List.length_drop]
  omega

theorem input_backspace_inv (s : InputState) (h : StrongInputInv s) :
    StrongInputInv (input_backspace s) := by
  obtain ⟨he, h0, h1, h2, h3⟩ := h
  unfold input_backspace
  split_ifs with hc hin
  · have l1 : ((pyTake s.input_text (s.input_text_cursor_index - 1)).length : Int) =
        s.input_text_cursor_index - 1 :=
      pyTake_length_of s.input_text _ (by omega) (by omega)
    have l2 : ((pyDrop s.input_text s.input_text_cursor_index).length : Int) =
        (s.input_text.length : Int) -
          min s.input_text_cursor_index (s.input_text.length : Int) :=
      pyDrop_length s.input_text _ (by omega)
    unfold StrongInputInv
    dsimp only
    rw [List.length_append]
    push_cast
    rw [l1, l2]
    omega
  · have l1 : ((pyTake s.input_text (s.input_text_cursor_index - 1)).length : Int) =
        s.input_text_cursor_index - 1 :=
      pyTake_length_of s.input_text _ (by omega) (by omega)
    have l2 : ((pyDrop s.input_text s.input_text_cursor_index).length : Int) =
        (s.input_text.length : Int) -
          min s.input_text_cursor_index (s.input_text.length : Int) :=
      pyDrop_length s.input_text _ (by omega)
    unfold StrongInputInv
    dsimp only
    rw [List.length_append]
    push_cast
    rw [l1, l2]
    omega
  · exact ⟨he, h0, h1, h2, h3⟩

theorem input_delete_inv (s : InputState) (h : StrongInputInv s) :
    StrongInputInv (input_delete s) := by
  obtain ⟨he, h0, h1, h2, h3⟩ := h
  unfold input_delete
  split_ifs with hc
  · have l1 : ((pyTake s.input_text s.input_text_cursor_index).length : Int) =
        s.input_text_cursor_index :=
      pyTake_length_of s.input_text _ (by omega) (by omega)
    have l2 : ((pyDrop s.input_text (s.input_text_cursor_index + 1)).length : Int) =
        (s.input_text.length : Int) -
          min (s.input_text_cursor_index + 1) (s.input_text.length : Int) :=
      pyDrop_length s.input_text _ (by omega)
    unfold StrongInputInv
    dsimp only
    rw [List.length_append]
    push_cast
    rw [l1, l2]
    omega
  · exact ⟨he, h0, h1, h2, h3⟩

theorem input_left_inv (s : InputState) (h : StrongInputInv s) :
    StrongInputInv (input_left s) := by
  obtain ⟨he, h0, h1, h2, h3⟩ := h
  unfold input_left
  split_ifs with hc hin
  · unfold StrongInputInv
    dsimp only
    omega
  · unfold StrongInputInv
    dsimp only
    omega
  · exact ⟨he, h0, h1, h2, h3⟩

theorem input_right_inv (s : InputState) (h : StrongInputInv s) :
    StrongInputInv (input_right s) := by
  obtain ⟨he, h0, h1, h2, h3⟩ := h
  unfold input_right
  split_ifs with hc hin
  · unfold StrongInputInv
    dsimp only
    omega
  · unfold StrongInputInv
    dsimp only
    omega
  · exact ⟨he, h0, h1, h2, h3⟩

theorem input_home_inv (s : InputState) (h : StrongInputInv s) :
    StrongInputInv (input_home s) := by
  obtain ⟨he, h0, h1, h2, h3⟩ := h
  unfold input_home StrongInputInv
  dsimp only
  omega

theorem input_end_key_inv (s : InputState) (h : StrongInputInv s) :
    StrongInputInv (input_end_key s) := by
  obtain ⟨he, h0, h1, h2, h3⟩ := h
  unfold input_end_key StrongInputInv
  dsimp only
  split_ifs <;> omega

theorem input_insert_inv (s : InputState) (ch : Char) (h : StrongInputInv s) :
    StrongInputInv (input_insert s ch) := by
  obtain ⟨he, h0, h1, h2, h3⟩ := h
  have l1 : ((pyTake s.input_text s.input_text_cursor_index).length : Int) =
      s.input_text_cursor_index :=
    pyTake_length_of s.input_text _ (by omega) (by omega)
  have l2 : ((pyDrop s.input_text s.input_text_cursor_index).length : Int) =
      (s.input_text.length : Int) -
        min s.input_text_cursor_index (s.input_text.length : Int) :=
    pyDrop_length s.input_text _ (by omega)
  unfold input_insert StrongInputInv
  dsimp only
  simp only [List.length_append, List.length_singleton]
  push_cast
  rw [l1, l2]
  split_ifs <;> omega

theorem input_handle_keystroke_inv (s : InputState) (key : Int)
    (h : StrongInputInv s) : StrongInputInv (input_handle_keystroke s key) := by
  unfold input_handle_keystroke
  split_ifs
  · exact input_backspace_inv s h
  · exact input_delete_inv s h
  · exact input_left_inv s h
  · exact input_right_inv s h
  · exact input_home_inv s h
  · exact input_end_key_inv s h
  · exact input_insert_inv s _ h
  · exact h
  · exact h

theorem input_foldl_inv (keys : List Int) :
    ∀ s : InputState, StrongInputInv s →
      StrongInputInv (List.foldl input_handle_keystroke s keys) := by
  induction keys with
  | nil =>
    intro s h
    exact h
  | cons k ks ih =>
    intro s h
    exact ih _ (input_handle_keystroke_inv s k h)

theorem inputInit_inv (default_value : String) (entry_width : Option Int)
    (allowed : Option String) (stdscr_width : Int)
    (h : 1 ≤ (inputInit default_value entry_width allowed stdscr_width).entry_width) :
    StrongInputInv (inputInit default_value entry_width allowed stdscr_width) := by
  unfold inputInit at h
  dsimp only at h
  unfold inputInit StrongInputInv
  dsimp only
  split_ifs <;> omega

/-- C9 (amended): for every InputPanel (any default text, entry width and
allow-list, provided the computed entry width is at least one) and every
keystroke sequence, the visible window starts at a non-negative index, has
length at most entry_width, and contains the cursor in the inclusive sense
first ≤ cursor ≤ first + entry_width.  The half-open containment of the
original claim fails only at the right edge: End (and construction with a
default no shorter than entry_width) parks the cursor at exactly
first + entry_width, one cell past the displayed slice, where render paints
the end-of-text cursor. -/
theorem inputPanel_window_invariant (default_value : String) (entry_width : Option Int)
    (allowed : Option String) (stdscr_width : Int) (keys : List Int)
    (h : 1 ≤ (inputInit default_value entry_width allowed stdscr_width).entry_width) :
    InputWindowInv
      (List.foldl input_handle_keystroke
        (inputInit default_value entry_width allowed stdscr_width) keys) := by
  have hs := input_foldl_inv keys _
    (inputInit_inv default_value entry_width allowed stdscr_width h)
  obtain ⟨he, h0, h1, h2, h3⟩ := hs
  unfold InputWindowInv
  refine ⟨h0, h1, h3, ?_⟩
  unfold clippedText
  exact pyTake_length_le _ _ (by omega)

/-- C9 witness: the amended theorem applied to an InputPanel with default
text "hello", entry width 10, the default allow-list, on an 80-column
screen, after End, Right, Left. -/
theorem inputPanel_window_invariant_witness :
    InputWindowInv
      (List.foldl input_handle_keystroke (inputInit "hello" (some 10) none 80)
        [KEY_END, KEY_RIGHT, KEY_LEFT]) :=
  inputPanel_window_invariant "hello" (some 10) none 80 [KEY_END, KEY_RIGHT, KEY_LEFT]
    (by decide)

/-- C9 counterexample: an InputPanel with entry width 10 and default text
"helloworldXY" (12 characters); after an End keystroke the cursor index is 12
and the first displayed character index is 2, so the cursor is NOT inside the
half-open window [2, 2 + 10) claimed by the spec -- it sits exactly at
first + entry_width. -/
theorem inputPanel_window_counterexample :
    (input_handle_keystroke (inputInit "helloworldXY" (some 10) none 80)
        KEY_END).input_text_cursor_index = 12 ∧
    (input_handle_keystroke (inputInit "helloworldXY" (some 10) none 80)
        KEY_END).input_text_first_displayed_char_index = 2 ∧
    (input_handle_keystroke (inputInit "helloworldXY" (some 10) none 80)
        KEY_END).entry_width = 10 ∧
    ¬((12 : Int) < 2 + 10) := by decide
